import Mathlib

/-!
Verification of the PinballY DMD playback and device-writer subsystem
(src/PinballY/DMDView.h, src/PinballY/RealDMD.h, src/PinballY/Sprite.h).

The headers contain the full inline code of DMDView::HighScoreImage (its
constructors, destructor and CreateSprite); those are embedded directly.
The bodies of DMDView::SetHighScoreImages, DMDView::GenerateDMDImage,
RealDMD::WriterThreadMain, RealDMD::SendWriterFrame, RealDMD::SetGameSettings
and RealDMD::NextSlide are not in the repository sources (only their
declarations are); those operations are modelled from the spec, as marked
in their doc comments.

Pointers (Sprite*, HBITMAP, const void* dibits) are modelled as
Option Nat: none is nullptr/NULL, some p is a non-null pointer identity.
DWORD values are modelled as Nat.
-/

namespace PinballY

/-- Windows RGBQUAD: four byte channels. -/
structure RGBQUAD where
  rgbBlue : Nat
  rgbGreen : Nat
  rgbRed : Nat
  rgbReserved : Nat
deriving DecidableEq, Repr

/-- DMDView::HighScoreImage::SpriteType (DMDView.h lines 96-101). -/
inductive SpriteType where
  | NoSpriteType
  | NormalSpriteType
  | DMDSpriteType
deriving DecidableEq, Repr

/-- DMDView::HighScoreImage (DMDView.h lines 93-195): sprite type, deferred
sprite, native bitmap handle, bitmap info, raw DIB pixel pointer, display
time, and DMD background color and alpha. -/
structure HighScoreImage where
  spriteType : SpriteType
  sprite : Option Nat
  hbmp : Option Nat
  bmi : Nat
  dibits : Option Nat
  displayTime : Nat
  bgColor : RGBQUAD
  bgAlpha : Nat
deriving DecidableEq, Repr

/-- The transfer constructor HighScoreImage(HighScoreImage &i)
(DMDView.h lines 126-140), embedded exactly: it detaches i.sprite and
i.hbmp into the new object, takes i.dibits and nulls it in the source,
copies spriteType, displayTime and bmi - but its mem-initializers
`bgColor(bgColor)` and `bgAlpha(bgAlpha)` name the DESTINATION object's own
members, not `i.bgColor` / `i.bgAlpha`, so the new object's bgColor and
bgAlpha are initialized from their own indeterminate storage.  The
parameters junkBgColor and junkBgAlpha stand for that indeterminate
storage.  The result is the pair (new object, source after the transfer). -/
def transferHighScoreImage (junkBgColor : RGBQUAD) (junkBgAlpha : Nat)
    (i : HighScoreImage) : HighScoreImage × HighScoreImage :=
  let dst : HighScoreImage :=
    { spriteType := i.spriteType
      sprite := i.sprite
      hbmp := i.hbmp
      bmi := i.bmi
      dibits := i.dibits
      displayTime := i.displayTime
      bgColor := junkBgColor
      bgAlpha := junkBgAlpha }
  let src : HighScoreImage :=
    { i with sprite := none, hbmp := none, dibits := none }
  (dst, src)

/-- The destructor ~HighScoreImage (DMDView.h lines 142-151) frees the
dibits array exactly when `hbmp == NULL && dibits != nullptr`.  This
predicate is true exactly when the destructor executes `delete[] dibits`. -/
def destructorFreesDibits (img : HighScoreImage) : Bool :=
  img.hbmp.isNone && img.dibits.isSome

/-- Number of times destroying this image frees the raw pixel buffer. -/
def destructorFreeCount (img : HighScoreImage) : Nat :=
  if destructorFreesDibits img then 1 else 0

/-- HighScoreImage::CreateSprite (DMDView.h lines 160-178), embedded with
the two deterministic loader functions DMDSprite::Load (DMDView.h lines
31-40) and Sprite::Load-from-DIB (Sprite.h line 82) abstracted as
parameters (they may fail, returning none for nullptr): if the sprite is
null, attach the loader's result, choosing the DMD loader for
DMDSpriteType and the plain loader otherwise; if a sprite already exists,
do nothing. -/
def CreateSprite
    (dmdLoad : RGBQUAD → Nat → Nat → Option Nat → Option Nat)
    (normalLoad : Nat → Option Nat → Option Nat)
    (img : HighScoreImage) : HighScoreImage :=
  if img.sprite = none then
    match img.spriteType with
    | SpriteType.DMDSpriteType =>
        { img with sprite := dmdLoad img.bgColor img.bgAlpha img.bmi img.dibits }
    | _ =>
        { img with sprite := normalLoad img.bmi img.dibits }
  else
    img

/-- The relevant fields of DMDView (DMDView.h lines 196, 267, 271): the
high-score image list, the next available image request sequence number,
and the sequence number of the current outstanding request. -/
structure DMDViewState where
  highScoreImages : List HighScoreImage
  nextImageRequestSeqNo : Nat
  pendingImageRequestSeqNo : Nat
deriving DecidableEq, Repr

/-- Modelled from the spec: the body of DMDView::GenerateDMDImage is not in
the repository sources (only its declaration, DMDView.h lines 87-90).  The
spec says a new generation request always takes the next sequence number
(`next++`) and the call returns the sequence number assigned to its
request.  Returns (assigned sequence number, updated view state). -/
def GenerateDMDImage (s : DMDViewState) : Nat × DMDViewState :=
  (s.nextImageRequestSeqNo,
    { s with nextImageRequestSeqNo := s.nextImageRequestSeqNo + 1 })

/-- Result of SetHighScoreImages: the updated view state, whether the
incoming images were adopted, and whether the incoming list was discarded
and its resources released. -/
structure SetImagesResult where
  state : DMDViewState
  adopted : Bool
  released : Bool
deriving DecidableEq, Repr

/-- Modelled from the spec: the body of DMDView::SetHighScoreImages is not
in the repository sources (only its declaration, DMDView.h line 264).  The
spec says the call is rejected, with the images discarded and released,
if seqno differs from the pending request sequence number; otherwise the
images are adopted as the view's high-score image list. -/
def SetHighScoreImages (s : DMDViewState) (seqno : Nat)
    (images : List HighScoreImage) : SetImagesResult :=
  if seqno = s.pendingImageRequestSeqNo then
    { state := { s with highScoreImages := images }
      adopted := true
      released := false }
  else
    { state := s, adopted := false, released := true }

/-- RealDMD::ColorSpace (RealDMD.h lines 125-130). -/
inductive ColorSpace where
  | DMD_COLOR_MONO4
  | DMD_COLOR_MONO16
  | DMD_COLOR_RGB
deriving DecidableEq, Repr

/-- RealDMD::Slide::SlideType (RealDMD.h lines 266-271). -/
inductive SlideType where
  | EmptySlide
  | MediaSlide
  | HighScoreSlide
deriving DecidableEq, Repr

/-- RealDMD::Slide (RealDMD.h lines 263-290): color space, owned pixel
buffer (modelled by its identity), display time, slide type. -/
structure Slide where
  colorSpace : ColorSpace
  pix : Nat
  displayTime : Nat
  slideType : SlideType
deriving DecidableEq, Repr

/-- RealDMD::GameSettings (RealDMD.h lines 309-315): game name plus the
opaque vendor option bundle (modelled by an identity). -/
structure GameSettings where
  gameName : String
  opts : Nat
deriving DecidableEq, Repr

/-- One call into the device DLL made by the writer thread. -/
inductive DeviceCall where
  | sendFrame (colorSpace : ColorSpace) (pix : Nat)
  | gameSettings (gameName : String) (opts : Nat)
deriving DecidableEq, Repr

/-- Is this device call a frame send? -/
def DeviceCall.isFrameSend : DeviceCall → Bool
  | DeviceCall.sendFrame _ _ => true
  | DeviceCall.gameSettings _ _ => false

/-- The relevant fields of RealDMD (RealDMD.h lines 117, 120, 302, 316,
291, 331 and the slide-show timer): enablement, session flag, the two
single-slot writer mailboxes, the slide show list, the current slide-show
position, and the interval the slide timer is armed with. -/
structure RealDMDState where
  enabled : Bool
  sessionOpen : Bool
  writerFrame : Option Slide
  writerSettings : Option GameSettings
  slideShow : List Slide
  slideShowPos : Nat
  slideTimerInterval : Option Nat
deriving DecidableEq, Repr

/-- Modelled from the spec: the body of RealDMD::SendWriterFrame is not in
the repository sources (only its declaration, RealDMD.h line 319).  The
spec says the producer writes the frame into the single-slot writerFrame
mailbox, overwriting any pending, not-yet-sent frame (latest wins). -/
def SendWriterFrame (s : RealDMDState) (slide : Slide) : RealDMDState :=
  { s with writerFrame := some slide }

/-- Modelled from the spec: the body of RealDMD::SetGameSettings is not in
the repository sources (only its declaration, RealDMD.h line 112).  The
spec says superseded settings are simply replaced in the single-slot
writerSettings mailbox, never queued; and when the DMD is disabled every
operation is a no-op reporting success.  Returns (updated state, success
flag, device DLL calls made directly by this producer-side call). -/
def SetGameSettings (s : RealDMDState) (gs : GameSettings) :
    RealDMDState × Bool × List DeviceCall :=
  if s.enabled then
    ({ s with writerSettings := some gs }, true, [])
  else
    (s, true, [])

/-- Modelled from the spec: the frame-send producer operation (the
PresentVideoFrame / RenderSlide path handing a frame to the writer; the
bodies are not in the repository sources).  When the DMD is disabled the
operation is a no-op reporting success; otherwise it stores the frame in
the writer mailbox.  Returns (updated state, success flag, device DLL
calls made directly by this producer-side call). -/
def SendFrame (s : RealDMDState) (slide : Slide) :
    RealDMDState × Bool × List DeviceCall :=
  if s.enabled then
    (SendWriterFrame s slide, true, [])
  else
    (s, true, [])

/-- Modelled from the spec: one wake cycle of RealDMD::WriterThreadMain
(the body is not in the repository sources; only the declaration,
RealDMD.h line 156).  The spec says the woken writer atomically takes
whatever is currently in each mailbox, clears the mailboxes, and performs
the device calls, applying settings (PM_GameSettings) before the frame
captured in the same cycle.  Returns (state after the cycle, device DLL
calls performed, in order). -/
def WriterWakeCycle (s : RealDMDState) : RealDMDState × List DeviceCall :=
  let settingsCalls : List DeviceCall :=
    match s.writerSettings with
    | some gs => [DeviceCall.gameSettings gs.gameName gs.opts]
    | none => []
  let frameCalls : List DeviceCall :=
    match s.writerFrame with
    | some f => [DeviceCall.sendFrame f.colorSpace f.pix]
    | none => []
  ({ s with writerFrame := none, writerSettings := none },
    settingsCalls ++ frameCalls)

/-- Modelled from the spec: the body of RealDMD::NextSlide is not in the
repository sources (only its declaration, RealDMD.h line 325).  The spec
says a slide-show timer fire advances the current position to
(i+1) mod n, re-arms the timer with the new slide's display time, and
pushes the new slide to the device writer; with an empty slide list the
fire does nothing. -/
def NextSlide (s : RealDMDState) : RealDMDState :=
  if h : s.slideShow.length = 0 then
    s
  else
    let newPos := (s.slideShowPos + 1) % s.slideShow.length
    let slide := s.slideShow.get ⟨newPos, Nat.mod_lt _ (Nat.pos_of_ne_zero h)⟩
    SendWriterFrame
      { s with slideShowPos := newPos,
               slideTimerInterval := some slide.displayTime }
      slide

/-- Modelled from the spec: the startup enable decision (RealDMD::Init /
RealDMD::ShouldEnable, bodies not in the repository sources) is computed
once from environment and capability probing - presence of a compatible
driver DLL and a configuration flag; a fresh RealDMD has no open session,
empty writer mailboxes and an empty slide show. -/
def InitState (dllFound : Bool) (configEnabled : Bool) : RealDMDState :=
  { enabled := dllFound && configEnabled
    sessionOpen := false
    writerFrame := none
    writerSettings := none
    slideShow := []
    slideShowPos := 0
    slideTimerInterval := none }

/-- A concrete high-score image with a separately allocated DIB and no
native bitmap handle, for instantiating the universal theorems. -/
def sampleImage : HighScoreImage :=
  { spriteType := SpriteType.DMDSpriteType
    sprite := none
    hbmp := none
    bmi := 1
    dibits := some 7
    displayTime := 3500
    bgColor := ⟨0, 0, 0, 0⟩
    bgAlpha := 255 }

/-- A concrete high-score image that already holds a sprite. -/
def spriteLoadedImage : HighScoreImage :=
  { sampleImage with sprite := some 4 }

/-- A concrete DMD view state with an outstanding request number. -/
def sampleView : DMDViewState :=
  { highScoreImages := []
    nextImageRequestSeqNo := 6
    pendingImageRequestSeqNo := 5 }

/-- A concrete slide, for instantiating the universal theorems. -/
def slideA : Slide :=
  { colorSpace := ColorSpace.DMD_COLOR_MONO4
    pix := 10
    displayTime := 3500
    slideType := SlideType.HighScoreSlide }

/-- A second concrete slide. -/
def slideB : Slide :=
  { colorSpace := ColorSpace.DMD_COLOR_RGB
    pix := 11
    displayTime := 7000
    slideType := SlideType.MediaSlide }

/-- A concrete RealDMD state with both writer mailboxes full and a
two-slide slide show at position 0. -/
def sampleDMDState : RealDMDState :=
  { enabled := true
    sessionOpen := true
    writerFrame := some slideA
    writerSettings := some { gameName := "ij_l7", opts := 3 }
    slideShow := [slideA, slideB]
    slideShowPos := 0
    slideTimerInterval := some 3500 }

/-- C1: SetHighScoreImages(seqno, images) adopts the images into the view's
high-score image list if and only if seqno equals pendingImageRequestSeqNo;
when seqno differs, the images are discarded and released, and the view's
existing slide list and pendingImageRequestSeqNo (the whole view state) are
left unchanged. -/
theorem setHighScoreImages_adopt_iff (s : DMDViewState) (seqno : Nat)
    (images : List HighScoreImage) :
    ((SetHighScoreImages s seqno images).adopted = true ↔
      seqno = s.pendingImageRequestSeqNo) ∧
    (seqno = s.pendingImageRequestSeqNo →
      (SetHighScoreImages s seqno images).state.highScoreImages = images) ∧
    (seqno ≠ s.pendingImageRequestSeqNo →
      (SetHighScoreImages s seqno images).released = true ∧
      (SetHighScoreImages s seqno images).state = s) := by
  unfold SetHighScoreImages
  by_cases h : seqno = s.pendingImageRequestSeqNo <;> simp [h]

/-- Witness for C1: at the concrete view state with pending number 5, a
completion with stale number 3 is released and changes nothing. -/
theorem setHighScoreImages_adopt_iff_witness :
    (3 : Nat) ≠ sampleView.pendingImageRequestSeqNo ∧
    (SetHighScoreImages sampleView 3 []).released = true ∧
    (SetHighScoreImages sampleView 3 []).state = sampleView := by
  have h : (3 : Nat) ≠ sampleView.pendingImageRequestSeqNo := by decide
  have hthm := (setHighScoreImages_adopt_iff sampleView 3 []).2.2 h
  exact ⟨h, hthm.1, hthm.2⟩

/-- C2: the claim says the transfer constructor HighScoreImage(HighScoreImage&)
produces an object whose bgColor and bgAlpha equal the source's.  The code
does not: its mem-initializers `bgColor(bgColor)` and `bgAlpha(bgAlpha)`
(DMDView.h lines 132-133) read the destination object's own indeterminate
members instead of `i.bgColor` / `i.bgAlpha`.  Evaluated at a source with
bgAlpha 255 and bgColor (0,0,0,0), with the destination's indeterminate
storage holding bgAlpha 0 and bgColor (9,9,9,9), the constructed object's
background fields are the indeterminate values, not the source's. -/
theorem transfer_bgFields_not_copied :
    (transferHighScoreImage ⟨9, 9, 9, 9⟩ 0 sampleImage).1.bgAlpha = 0 ∧
    (transferHighScoreImage ⟨9, 9, 9, 9⟩ 0 sampleImage).1.bgColor = ⟨9, 9, 9, 9⟩ ∧
    sampleImage.bgAlpha = 255 ∧
    sampleImage.bgColor = ⟨0, 0, 0, 0⟩ ∧
    (0 : Nat) ≠ 255 := by decide

/-- C3: the destructor frees the raw dibits pixel buffer if and only if the
image holds no native bitmap handle and dibits is non-null; with a handle
present the buffer is never freed, and without one a non-null buffer is
freed exactly once. -/
theorem destructor_frees_iff (img : HighScoreImage) :
    (destructorFreesDibits img = true ↔ img.hbmp = none ∧ img.dibits ≠ none) ∧
    destructorFreeCount img =
      (if img.hbmp = none ∧ img.dibits ≠ none then 1 else 0) := by
  unfold destructorFreeCount destructorFreesDibits
  cases img.hbmp <;> cases img.dibits <;> simp

/-- Witness for C3: the concrete image with no handle and a non-null DIB is
freed by its destructor. -/
theorem destructor_frees_iff_witness :
    destructorFreesDibits sampleImage = true :=
  (destructor_frees_iff sampleImage).1.mpr ⟨rfl, by decide⟩

/-- C4: each GenerateDMDImage call returns exactly the sequence number taken
from nextImageRequestSeqNo, which is then incremented, so the number
returned by a second call is strictly greater than the first one. -/
theorem generateDMDImage_strictly_increasing (s : DMDViewState) :
    (GenerateDMDImage s).1 = s.nextImageRequestSeqNo ∧
    (GenerateDMDImage s).2.nextImageRequestSeqNo = s.nextImageRequestSeqNo + 1 ∧
    (GenerateDMDImage (GenerateDMDImage s).2).1 > (GenerateDMDImage s).1 := by
  unfold GenerateDMDImage
  simp

/-- C5: if frames F1, F2, F3 are handed to the writer mailbox (in that
order) before the writer wakes, the wake cycle performs exactly one device
frame send, using F3's pixel data; F1 and F2 are never sent. -/
theorem writer_coalesces_to_latest (s : RealDMDState) (f1 f2 f3 : Slide) :
    ((WriterWakeCycle
        (SendWriterFrame (SendWriterFrame (SendWriterFrame s f1) f2) f3)).2.filter
      DeviceCall.isFrameSend) = [DeviceCall.sendFrame f3.colorSpace f3.pix] := by
  unfold WriterWakeCycle SendWriterFrame
  cases s.writerSettings <;> simp [DeviceCall.isFrameSend]

/-- C6: in a wake cycle that takes both pending game settings and a pending
frame from the mailboxes, the PM_GameSettings device call happens before
the device call sending the frame captured in that cycle. -/
theorem writer_settings_before_frame (s : RealDMDState) (gs : GameSettings)
    (f : Slide) (hs : s.writerSettings = some gs) (hf : s.writerFrame = some f) :
    (WriterWakeCycle s).2 =
      [DeviceCall.gameSettings gs.gameName gs.opts,
       DeviceCall.sendFrame f.colorSpace f.pix] := by
  unfold WriterWakeCycle
  rw [hs, hf]
  simp

/-- Witness for C6: at the concrete state with both mailboxes full, the
cycle's calls are the settings call followed by the frame send. -/
theorem writer_settings_before_frame_witness :
    (WriterWakeCycle sampleDMDState).2 =
      [DeviceCall.gameSettings "ij_l7" 3,
       DeviceCall.sendFrame slideA.colorSpace slideA.pix] :=
  writer_settings_before_frame sampleDMDState
    { gameName := "ij_l7", opts := 3 } slideA rfl rfl

/-- C7: when the DMD is disabled, frame-send and game-settings operations
are no-ops that report success: no device DLL call, the state (sessionOpen
and the writer mailboxes included) unchanged, no error. -/
theorem disabled_ops_are_noops (s : RealDMDState) (slide : Slide)
    (gs : GameSettings) (h : s.enabled = false) :
    SendFrame s slide = (s, true, []) ∧ SetGameSettings s gs = (s, true, []) := by
  unfold SendFrame SetGameSettings
  rw [h]
  simp

/-- Witness for C7: with the driver DLL absent at startup the state is
disabled, and a frame send on it is a successful no-op. -/
theorem disabled_ops_are_noops_witness :
    (InitState false true).enabled = false ∧
    SendFrame (InitState false true) slideA = (InitState false true, true, []) := by
  have h : (InitState false true).enabled = false := by decide
  exact ⟨h,
    (disabled_ops_are_noops (InitState false true) slideA
      { gameName := "afm", opts := 1 } h).1⟩

/-- C8: with a non-empty slide list, a slide-show timer fire advances the
current position to (i+1) mod n, re-arms the timer with the displayTime of
the slide at the new position, pushes that slide to the device writer, and
leaves the slide list itself unchanged, so the list loops forever until
replaced or cleared. -/
theorem nextSlide_advances (s : RealDMDState) (h : s.slideShow.length ≠ 0) :
    (NextSlide s).slideShowPos = (s.slideShowPos + 1) % s.slideShow.length ∧
    (NextSlide s).slideTimerInterval = some
      (s.slideShow.get ⟨(s.slideShowPos + 1) % s.slideShow.length,
        Nat.mod_lt _ (Nat.pos_of_ne_zero h)⟩).displayTime ∧
    (NextSlide s).writerFrame = some
      (s.slideShow.get ⟨(s.slideShowPos + 1) % s.slideShow.length,
        Nat.mod_lt _ (Nat.pos_of_ne_zero h)⟩) ∧
    (NextSlide s).slideShow = s.slideShow := by
  unfold NextSlide SendWriterFrame
  simp [h]

/-- Witness for C8: at the concrete two-slide state at position 0, a timer
fire moves to position 1 and keeps the slide list. -/
theorem nextSlide_advances_witness :
    sampleDMDState.slideShow.length ≠ 0 ∧
    (NextSlide sampleDMDState).slideShowPos = 1 ∧
    (NextSlide sampleDMDState).slideShow = sampleDMDState.slideShow := by
  have h : sampleDMDState.slideShow.length ≠ 0 := by decide
  have hthm := nextSlide_advances sampleDMDState h
  exact ⟨h, hthm.1.trans (by decide), hthm.2.2.2⟩

/-- C9: after the transfer constructor runs, the source retains no
ownership: its dibits is null and its sprite and hbmp holders are detached,
and destroying both the source and the new object frees the raw pixel
buffer at most once in total. -/
theorem transfer_source_relinquishes (junkC : RGBQUAD) (junkA : Nat)
    (i : HighScoreImage) :
    (transferHighScoreImage junkC junkA i).2.dibits = none ∧
    (transferHighScoreImage junkC junkA i).2.sprite = none ∧
    (transferHighScoreImage junkC junkA i).2.hbmp = none ∧
    destructorFreeCount (transferHighScoreImage junkC junkA i).1 +
      destructorFreeCount (transferHighScoreImage junkC junkA i).2 ≤ 1 := by
  unfold transferHighScoreImage destructorFreeCount destructorFreesDibits
  simp
  split <;> simp

/-- C10: CreateSprite is idempotent: with an existing sprite the call leaves
the object entirely unchanged; calling twice yields the same state as
calling once; and it never replaces an existing sprite. -/
theorem createSprite_idempotent
    (dmdLoad : RGBQUAD → Nat → Nat → Option Nat → Option Nat)
    (normalLoad : Nat → Option Nat → Option Nat) (img : HighScoreImage) :
    (∀ p, img.sprite = some p → CreateSprite dmdLoad normalLoad img = img) ∧
    CreateSprite dmdLoad normalLoad (CreateSprite dmdLoad normalLoad img) =
      CreateSprite dmdLoad normalLoad img ∧
    (∀ p, img.sprite = some p →
      (CreateSprite dmdLoad normalLoad img).sprite = some p) := by
  refine ⟨?_, ?_, ?_⟩
  · intro p hp
    unfold CreateSprite
    simp [hp]
  · by_cases h : img.sprite = none
    · unfold CreateSprite
      cases hst : img.spriteType <;> simp [h, hst]
    · unfold CreateSprite
      simp [h]
  · intro p hp
    unfold CreateSprite
    simp [hp]

/-- Witness for C10: on the concrete image already holding sprite 4, a
CreateSprite call with loaders that would return other sprites changes
nothing. -/
theorem createSprite_idempotent_witness :
    CreateSprite (fun _ _ _ _ => some 1) (fun _ _ => some 2) spriteLoadedImage =
      spriteLoadedImage :=
  (createSprite_idempotent (fun _ _ _ _ => some 1) (fun _ _ => some 2)
    spriteLoadedImage).1 4 rfl

end PinballY
